import Mathlib

/-!
# Verification of the Phantom E2EE relay server (`server.js`)

A shallow embedding of the stateful relay core of `server.js`: the account
directory (`users` map), the offline message queue (`messageQueue` map), the
four inbound-message handlers (`register`, `sendMessage`, `getPublicKey`,
`ping`), the connection-close handler and the periodic cleanup sweep.

JavaScript `Map`s are modelled as insertion-ordered association lists
(`Map.set` on a fresh key appends; on an existing key it updates in place;
`Map.delete` removes the key; iteration follows insertion order).
JavaScript `Set`s of connection handles are modelled as duplicate-free
insertion-ordered lists. A possibly-missing string field of an inbound frame
is an `Option String`, and JavaScript truthiness for such a field
(`undefined`, `null` and `""` are falsy) is the `falsy` predicate.
The random message id (`crypto.randomBytes(16).toString('hex')`) and the
clock (`Date.now()`) are inputs of the handlers, and the transport readiness
check `conn.readyState === WebSocket.OPEN` is an input predicate on handles.
-/

namespace Phantom

/-- A connection handle (`ws`): an opaque reference to a live session. -/
abbrev Conn := Nat

/-- JavaScript truthiness test for a possibly-missing string field:
`undefined`/`null` (here `none`) and the empty string are falsy. -/
def falsy : Option String → Bool
  | none => true
  | some s => s.isEmpty

/-- An account record, as stored in the `users` map:
`{ publicKey, username, connections: Set<ws>, registeredAt }`. -/
structure User where
  publicKey : String
  username : String
  connections : List Conn
  registeredAt : Nat
  deriving Repr, DecidableEq, Inhabited

/-- A `messagePacket` built by `handleSendMessage`:
`{ type: 'newMessage', from, encryptedMessage, timestamp, id }`
(the constant `type` tag is carried by the `Frame.newMessage` constructor). -/
structure Packet where
  from_ : String
  encryptedMessage : String
  timestamp : Nat
  id : String
  deriving Repr, DecidableEq, Inhabited

/-- Outbound frames the server serialises with `ws.send(JSON.stringify(...))`. -/
inductive Frame where
  | error (message : String)
  | registered (accountId : String) (onlineUsers : Nat)
  | newMessage (packet : Packet)
  | messageSent (messageId : String) (status : String)
  | publicKey (accountId pk username : String)
  | pong
  deriving Repr, DecidableEq

/-- An observable effect of a handler on the transport layer.  The server's
message handlers only ever send frames; `close` is included so that "the
server does not close the connection" is expressible. -/
inductive Action where
  | send (c : Conn) (f : Frame)
  | close (c : Conn)
  deriving Repr, DecidableEq

/-- `Map.get`: first (and, with unique keys, only) binding of `k`. -/
def mapGet (m : List (String × α)) (k : String) : Option α :=
  match m with
  | [] => none
  | (k', v) :: rest => if k' = k then some v else mapGet rest k

/-- `Map.has`. -/
def mapHas (m : List (String × α)) (k : String) : Bool :=
  (mapGet m k).isSome

/-- `Map.set`: update in place when the key exists, append otherwise. -/
def mapSet (m : List (String × α)) (k : String) (v : α) : List (String × α) :=
  match m with
  | [] => [(k, v)]
  | (k', v') :: rest => if k' = k then (k, v) :: rest else (k', v') :: mapSet rest k v

/-- `Map.delete`: remove the binding of `k`. -/
def mapDelete (m : List (String × α)) (k : String) : List (String × α) :=
  m.filter (fun e => e.1 ≠ k)

/-- `Set.add` on a connection set: no-op when already present, else append. -/
def addConn (ws : Conn) (l : List Conn) : List Conn :=
  if ws ∈ l then l else l ++ [ws]

/-- The mutable server state: the `users` and `messageQueue` maps. -/
structure ServerState where
  users : List (String × User)
  messageQueue : List (String × List Packet)
  deriving Repr, DecidableEq

/-- The initial state: both maps empty. -/
def initialState : ServerState := ⟨[], []⟩

/-- `handleRegister(ws, message)`: validate `accountId`/`publicKey`, create the
account on first registration only, add the connection, answer `registered`,
then flush and delete any queued messages for that id. -/
def handleRegister (ws : Conn) (accountId publicKey username : Option String)
    (now : Nat) (st : ServerState) : ServerState × List Action :=
  if falsy accountId || falsy publicKey then
    (st, [.send ws (.error "Missing accountId or publicKey")])
  else
    let aid := accountId.getD ""
    let freshUser : User :=
      { publicKey := publicKey.getD ""
        username := if falsy username then "Anonymous" else username.getD ""
        connections := []
        registeredAt := now }
    let st1 : ServerState :=
      if mapHas st.users aid then st
      else { st with users := mapSet st.users aid freshUser }
    let user := (mapGet st1.users aid).getD default
    let user2 : User := { user with connections := addConn ws user.connections }
    let st2 : ServerState := { st1 with users := mapSet st1.users aid user2 }
    let outs := [Action.send ws (.registered aid st2.users.length)]
    match mapGet st2.messageQueue aid with
    | some queue =>
        ({ st2 with messageQueue := mapDelete st2.messageQueue aid },
          outs ++ queue.map (fun msg => Action.send ws (.newMessage msg)))
    | none => (st2, outs)

/-- `handleSendMessage(ws, message)`: validate `to`/`encryptedMessage`/`from`,
build the packet, then fan out to open connections of the recipient (answering
`delivered` only if at least one send happened) or enqueue (answering
`queued`) when the recipient is absent or has an empty connection set. -/
def handleSendMessage (ws : Conn) (to_ encryptedMessage from_ : Option String)
    (now : Nat) (freshId : String) (isOpen : Conn → Bool) (st : ServerState) :
    ServerState × List Action :=
  if falsy to_ || falsy encryptedMessage || falsy from_ then
    (st, [.send ws (.error "Invalid message structure")])
  else
    let toId := to_.getD ""
    let messagePacket : Packet :=
      { from_ := from_.getD ""
        encryptedMessage := encryptedMessage.getD ""
        timestamp := now
        id := freshId }
    let enqueue : ServerState × List Action :=
      let q := (mapGet st.messageQueue toId).getD []
      ({ st with messageQueue := mapSet st.messageQueue toId (q ++ [messagePacket]) },
        [.send ws (.messageSent freshId "queued")])
    match mapGet st.users toId with
    | some recipient =>
        if recipient.connections.length > 0 then
          let opens := recipient.connections.filter isOpen
          let fanout := opens.map (fun c => Action.send c (.newMessage messagePacket))
          if opens.isEmpty then (st, fanout)
          else (st, fanout ++ [.send ws (.messageSent freshId "delivered")])
        else enqueue
    | none => enqueue

/-- `handleGetPublicKey(ws, message)`: look the `accountId` field up in
`users` (a missing field looks up nothing) and answer `publicKey` or a
`User not found` error. -/
def handleGetPublicKey (ws : Conn) (accountId : Option String)
    (st : ServerState) : ServerState × List Action :=
  match accountId.bind (mapGet st.users) with
  | some user =>
      (st, [.send ws (.publicKey (accountId.getD "") user.publicKey user.username)])
  | none => (st, [.send ws (.error "User not found")])

/-- A parsed inbound message, dispatched on its `type` field. -/
inductive ClientMsg where
  | register (accountId publicKey username : Option String)
  | sendMessage (to_ encryptedMessage from_ : Option String)
  | getPublicKey (accountId : Option String)
  | ping
  | unknown (t : String)
  deriving Repr, DecidableEq

/-- Raw inbound data: either parsed into a structured message, or
malformed (a `JSON.parse` failure). -/
inductive Inbound where
  | parsed (m : ClientMsg)
  | malformed
  deriving Repr, DecidableEq

/-- Per-connection session state of the `wss.on('connection')` closure:
`currentAccountId`, `null` before any register. -/
structure Session where
  currentAccountId : Option String
  deriving Repr, DecidableEq

/-- The `ws.on('message')` dispatcher: parse, switch on `type`
(`register` also overwrites `currentAccountId` with the frame's `accountId`,
whether or not the registration validated), answer `pong` to `ping`, ignore
unknown types, and answer an error frame when parsing failed. -/
def handleRawMessage (ws : Conn) (inbound : Inbound) (now : Nat)
    (freshId : String) (isOpen : Conn → Bool) (sess : Session)
    (st : ServerState) : Session × ServerState × List Action :=
  match inbound with
  | .malformed => (sess, st, [.send ws (.error "Invalid message format")])
  | .parsed m =>
      match m with
      | .register accountId publicKey username =>
          let r := handleRegister ws accountId publicKey username now st
          ({ currentAccountId := accountId }, r.1, r.2)
      | .sendMessage to_ encryptedMessage from_ =>
          let r := handleSendMessage ws to_ encryptedMessage from_ now freshId isOpen st
          (sess, r.1, r.2)
      | .getPublicKey accountId =>
          let r := handleGetPublicKey ws accountId st
          (sess, r.1, r.2)
      | .ping => (sess, st, [.send ws .pong])
      | .unknown _ => (sess, st, [])

/-- The `ws.on('close')` handler: if `currentAccountId` is truthy and names a
known account, delete this connection from that account's set. -/
def handleClose (ws : Conn) (sess : Session) (st : ServerState) : ServerState :=
  if falsy sess.currentAccountId then st
  else
    let aid := sess.currentAccountId.getD ""
    match mapGet st.users aid with
    | some user =>
        let user2 : User := { user with connections := user.connections.filter (fun c => c ≠ ws) }
        { st with users := mapSet st.users aid user2 }
    | none => st

/-- The retention window of the cleanup sweep: 7 days in milliseconds. -/
def maxAge : Nat := 7 * 24 * 60 * 60 * 1000

/-- The predicate the sweep keeps a queued message by:
`now - msg.timestamp < maxAge` (JavaScript numbers may go negative, so the
subtraction is over `Int`). -/
def isFresh (now : Nat) (msg : Packet) : Bool :=
  (now : Int) - (msg.timestamp : Int) < (maxAge : Int)

/-- The hourly `setInterval` cleanup sweep: filter every queued sequence by
age and delete the key when the filtered sequence is empty. -/
def cleanup (now : Nat) (st : ServerState) : ServerState :=
  let swept :=
    (st.messageQueue.map (fun e => (e.1, e.2.filter (isFresh now)))).filter
      (fun e => e.2.length != 0)
  { st with messageQueue := swept }

/-- A concrete run on connection 1: a successful registration as "alice". -/
def closeScene1 : Session × ServerState × List Action :=
  handleRawMessage 1 (.parsed (.register (some "alice") (some "pkA") none)) 10 "f0"
    (fun _ => true) ⟨none⟩ initialState

/-- Continuation of `closeScene1`: the same connection sends a register frame
naming "bob" but missing its `publicKey`, which fails validation. -/
def closeScene2 : Session × ServerState × List Action :=
  handleRawMessage 1 (.parsed (.register (some "bob") none none)) 20 "f1"
    (fun _ => true) closeScene1.1 closeScene1.2.1

/-! ## Association-list map lemmas -/

theorem mapGet_mapSet_self (m : List (String × α)) (k : String) (v : α) :
    mapGet (mapSet m k v) k = some v := by
  induction m with
  | nil => simp [mapGet, mapSet]
  | cons e rest ih =>
      obtain ⟨k', v'⟩ := e
      by_cases h : k' = k <;> simp [mapGet, mapSet, h, ih]

theorem mapGet_mapSet_ne (m : List (String × α)) (k k' : String) (v : α)
    (h : k' ≠ k) : mapGet (mapSet m k v) k' = mapGet m k' := by
  induction m with
  | nil => simp [mapGet, mapSet, Ne.symm h]
  | cons e rest ih =>
      obtain ⟨k₀, v₀⟩ := e
      by_cases h₀ : k₀ = k <;>
        by_cases h₁ : k₀ = k' <;>
        simp_all [mapGet, mapSet, Ne.symm h]

theorem mapGet_mapDelete_self (m : List (String × α)) (k : String) :
    mapGet (mapDelete m k) k = none := by
  induction m with
  | nil => rfl
  | cons e rest ih =>
      obtain ⟨k', v'⟩ := e
      by_cases h : k' = k <;> simp [mapGet, mapDelete, h, ih] <;>
        simpa [mapDelete] using ih

theorem mapSet_mapGet_self (m : List (String × α)) (k : String) (v : α)
    (h : mapGet m k = some v) : mapSet m k v = m := by
  induction m with
  | nil => simp [mapGet] at h
  | cons e rest ih =>
      obtain ⟨k', v'⟩ := e
      by_cases h' : k' = k
      · simp only [mapGet, if_pos h'] at h
        obtain rfl := Option.some.inj h
        simp [mapSet, h']
      · simp only [mapGet, if_neg h'] at h
        simp [mapSet, h', ih h]

theorem mapGet_eq_none_of_not_mem (m : List (String × α)) (k : String)
    (h : k ∉ m.map Prod.fst) : mapGet m k = none := by
  induction m with
  | nil => rfl
  | cons e rest ih =>
      simp only [List.map_cons, List.mem_cons] at h
      push_neg at h
      simp [mapGet, Ne.symm h.1, ih h.2]

/-! ## Shape lemmas for `handleRegister` -/

/-- A validated registration whose id has a queued sequence `q` flushes it:
the outputs are the `registered` frame followed by the queued messages in
insertion order, and the queue key is deleted.  (The `onlineUsers` count of
the `registered` frame is the size of the directory after the registration.) -/
theorem handleRegister_flush (ws : Conn)
    (accountId publicKey username : Option String) (now : Nat)
    (st : ServerState) (q : List Packet)
    (h1 : falsy accountId = false) (h2 : falsy publicKey = false)
    (hq : mapGet st.messageQueue (accountId.getD "") = some q) :
    (handleRegister ws accountId publicKey username now st).1.messageQueue =
      mapDelete st.messageQueue (accountId.getD "") ∧
    (handleRegister ws accountId publicKey username now st).2 =
      Action.send ws (.registered (accountId.getD "")
          (handleRegister ws accountId publicKey username now st).1.users.length) ::
        q.map (fun msg => Action.send ws (.newMessage msg)) := by
  by_cases hhas : mapHas st.users (accountId.getD "") = true <;>
    exact ⟨by simp [handleRegister, h1, h2, hhas, hq],
      by simp [handleRegister, h1, h2, hhas, hq]⟩

/-- A validated registration whose id has no queued sequence sends only the
`registered` frame and leaves the queue map untouched. -/
theorem handleRegister_no_queue (ws : Conn)
    (accountId publicKey username : Option String) (now : Nat)
    (st : ServerState)
    (h1 : falsy accountId = false) (h2 : falsy publicKey = false)
    (hq : mapGet st.messageQueue (accountId.getD "") = none) :
    (handleRegister ws accountId publicKey username now st).2 =
      [Action.send ws (.registered (accountId.getD "")
        (handleRegister ws accountId publicKey username now st).1.users.length)] := by
  by_cases hhas : mapHas st.users (accountId.getD "") = true <;>
    simp [handleRegister, h1, h2, hhas, hq]

/-- What the sweep does to one key of a queue map with duplicate-free keys:
the stored sequence is filtered by freshness, and the key disappears exactly
when the filtered sequence is empty. -/
theorem mapGet_sweep (now : Nat) (l : List (String × List Packet)) (k : String)
    (hnd : (l.map Prod.fst).Nodup) :
    mapGet ((l.map (fun e => (e.1, e.2.filter (isFresh now)))).filter
        (fun e => e.2.length != 0)) k =
      match mapGet l k with
      | some q =>
          if (q.filter (isFresh now)).length = 0 then none
          else some (q.filter (isFresh now))
      | none => none := by
  induction l with
  | nil => rfl
  | cons e rest ih =>
      obtain ⟨k', v⟩ := e
      simp only [List.map_cons, List.nodup_cons] at hnd
      obtain ⟨hk, hrest⟩ := hnd
      by_cases hkk : k' = k
      · subst hkk
        have hnone : mapGet rest k' = none :=
          mapGet_eq_none_of_not_mem rest k' hk
        by_cases hv : (v.filter (isFresh now)).length = 0
        · simp [mapGet, List.filter_cons, hv, ih hrest, hnone]
        · simp [mapGet, List.filter_cons, hv]
      · by_cases hv : (v.filter (isFresh now)).length = 0 <;>
          simp [mapGet, List.filter_cons, hv, ih hrest, hkk]

/-! ## Claim theorems -/

/-- C7: every cleanup sweep leaves the account directory completely
unchanged — no `User` record and no connection set is touched; only the
`messageQueue` component of the state can differ. -/
theorem C7_cleanup_preserves_users (now : Nat) (st : ServerState) :
    (cleanup now st).users = st.users := rfl

/-- C9: an inbound frame that cannot be parsed produces exactly one `error`
frame to the originating connection, leaves the session and the whole server
state (accounts and offline queue) unchanged, and closes no connection. -/
theorem C9_malformed_frame (ws : Conn) (now : Nat) (freshId : String)
    (isOpen : Conn → Bool) (sess : Session) (st : ServerState) :
    handleRawMessage ws .malformed now freshId isOpen sess st =
      (sess, st, [.send ws (.error "Invalid message format")]) ∧
    ∀ c, Action.close c ∉ (handleRawMessage ws .malformed now freshId isOpen sess st).2.2 := by
  refine ⟨rfl, fun c => ?_⟩
  simp [handleRawMessage]

/-- C10: a `getPublicKey` frame with a missing `accountId` field is answered
with the very same `User not found` error frame as a lookup of an
unregistered id, and in both cases the state is unchanged. -/
theorem C10_getPublicKey_missing_field (ws : Conn) (st : ServerState) :
    handleGetPublicKey ws none st = (st, [.send ws (.error "User not found")]) ∧
    ∀ aid, mapGet st.users aid = none →
      handleGetPublicKey ws (some aid) st =
        (st, [.send ws (.error "User not found")]) := by
  refine ⟨rfl, fun aid h => ?_⟩
  simp [handleGetPublicKey, h]

/-- Witness for C10 at a concrete state with an unregistered id. -/
theorem C10_getPublicKey_missing_field_witness :
    handleGetPublicKey 3 (some "zoe") initialState =
      (initialState, [.send 3 (.error "User not found")]) :=
  (C10_getPublicKey_missing_field 3 initialState).2 "zoe" rfl

/-- C4: a `register` with a missing (falsy) `accountId` or `publicKey`, and a
`sendMessage` with a missing `to`, `from` or `encryptedMessage`, each produce
exactly one error frame to the originating connection and leave the account
directory and the offline queue unchanged. -/
theorem C4_validation_errors (ws ws' : Conn)
    (accountId publicKey username to_ encryptedMessage from_ : Option String)
    (now now' : Nat) (freshId : String) (isOpen : Conn → Bool)
    (st st' : ServerState)
    (hreg : falsy accountId = true ∨ falsy publicKey = true)
    (hsend : falsy to_ = true ∨ falsy encryptedMessage = true ∨ falsy from_ = true) :
    handleRegister ws accountId publicKey username now st =
      (st, [.send ws (.error "Missing accountId or publicKey")]) ∧
    handleSendMessage ws' to_ encryptedMessage from_ now' freshId isOpen st' =
      (st', [.send ws' (.error "Invalid message structure")]) := by
  constructor
  · rcases hreg with h | h <;> simp [handleRegister, h]
  · rcases hsend with h | h | h <;> simp [handleSendMessage, h]

/-- Witness for C4: a register missing its `publicKey` and a send missing its
`encryptedMessage`. -/
theorem C4_validation_errors_witness :
    handleRegister 1 (some "alice") none none 5 initialState =
      (initialState, [.send 1 (.error "Missing accountId or publicKey")]) ∧
    handleSendMessage 2 (some "bob") none (some "alice") 6 "id0" (fun _ => true)
        initialState =
      (initialState, [.send 2 (.error "Invalid message structure")]) :=
  C4_validation_errors 1 2 (some "alice") none none (some "bob") none (some "alice")
    5 6 "id0" (fun _ => true) initialState initialState
    (Or.inr rfl) (Or.inr (Or.inl rfl))

/-- C1 counterexample: account "bob" exists with exactly one connection,
which is not open (`isOpen` is false on every handle), so "bob" has zero open
connections; yet `handleSendMessage` neither appends anything to the offline
queue nor sends any response to the sender — the packet is silently dropped,
refuting the claim that this case enqueues and answers `queued`. -/
theorem C1_counterexample :
    handleSendMessage 1 (some "bob") (some "ct") (some "alice") 200 "id1"
        (fun _ => false) ⟨[("bob", ⟨"pkB", "Bob", [7], 5⟩)], []⟩ =
      (⟨[("bob", ⟨"pkB", "Bob", [7], 5⟩)], []⟩, []) := rfl

/-- C1 (amended): if the recipient account is unknown or its connection set is
empty, the router appends exactly one packet to the recipient's offline queue
(creating the sequence if absent) and answers the sender `queued` with the
packet's message id. (A recipient whose connection set is non-empty but holds
no open connection gets neither an enqueue nor a response.) -/
theorem C1_queue_when_unconnected (ws : Conn)
    (to_ encryptedMessage from_ : Option String) (now : Nat) (freshId : String)
    (isOpen : Conn → Bool) (st : ServerState)
    (h1 : falsy to_ = false) (h2 : falsy encryptedMessage = false)
    (h3 : falsy from_ = false)
    (h4 : mapGet st.users (to_.getD "") = none ∨
      ∃ r, mapGet st.users (to_.getD "") = some r ∧ r.connections = []) :
    handleSendMessage ws to_ encryptedMessage from_ now freshId isOpen st =
      (⟨st.users, mapSet st.messageQueue (to_.getD "")
          (((mapGet st.messageQueue (to_.getD "")).getD []) ++
            [{ from_ := from_.getD "", encryptedMessage := encryptedMessage.getD "",
               timestamp := now, id := freshId }])⟩,
        [.send ws (.messageSent freshId "queued")]) := by
  rcases h4 with h | ⟨r, hr, hc⟩ <;>
    simp [handleSendMessage, h1, h2, h3, *]

/-- Witness for the amended C1: sending to the never-registered "bob". -/
theorem C1_queue_when_unconnected_witness :
    handleSendMessage 1 (some "bob") (some "ct") (some "alice") 200 "id1"
        (fun _ => true) initialState =
      (⟨[], [("bob", [⟨"alice", "ct", 200, "id1"⟩])]⟩,
        [.send 1 (.messageSent "id1" "queued")]) :=
  C1_queue_when_unconnected 1 (some "bob") (some "ct") (some "alice") 200 "id1"
    (fun _ => true) initialState rfl rfl rfl (Or.inl rfl)

/-- C2: when the recipient account exists and at least one of its connections
is open, one packet is built and sent to every open connection (each copy
carries the same fresh id), the state — in particular the offline queue — is
unchanged, and the sender gets `messageSent` with status `delivered` and that
id. -/
theorem C2_fanout_delivery (ws : Conn)
    (to_ encryptedMessage from_ : Option String) (now : Nat) (freshId : String)
    (isOpen : Conn → Bool) (st : ServerState) (r : User)
    (h1 : falsy to_ = false) (h2 : falsy encryptedMessage = false)
    (h3 : falsy from_ = false)
    (hr : mapGet st.users (to_.getD "") = some r)
    (hopen : r.connections.filter isOpen ≠ []) :
    handleSendMessage ws to_ encryptedMessage from_ now freshId isOpen st =
      (st,
        (r.connections.filter isOpen).map (fun c => Action.send c (.newMessage
          { from_ := from_.getD "", encryptedMessage := encryptedMessage.getD "",
            timestamp := now, id := freshId })) ++
        [.send ws (.messageSent freshId "delivered")]) := by
  have hcne : r.connections ≠ [] := by
    intro h
    rw [h] at hopen
    exact hopen rfl
  simp [handleSendMessage, h1, h2, h3, hr, List.length_pos.mpr hcne,
    List.isEmpty_iff, hopen]

/-- Witness for C2: "bob" with two open sessions receives two copies with the
same id, and the sender is answered `delivered`. -/
theorem C2_fanout_delivery_witness :
    handleSendMessage 1 (some "bob") (some "ct") (some "alice") 200 "id1"
        (fun _ => true) ⟨[("bob", ⟨"pkB", "Bob", [7, 8], 5⟩)], []⟩ =
      (⟨[("bob", ⟨"pkB", "Bob", [7, 8], 5⟩)], []⟩,
        [.send 7 (.newMessage ⟨"alice", "ct", 200, "id1"⟩),
         .send 8 (.newMessage ⟨"alice", "ct", 200, "id1"⟩),
         .send 1 (.messageSent "id1" "delivered")]) :=
  C2_fanout_delivery 1 (some "bob") (some "ct") (some "alice") 200 "id1"
    (fun _ => true) ⟨[("bob", ⟨"pkB", "Bob", [7, 8], 5⟩)], []⟩
    ⟨"pkB", "Bob", [7, 8], 5⟩ rfl rfl rfl rfl (by decide)

/-- C3: re-registering an id that already has an Account leaves the stored
`publicKey`, `username` and `registeredAt` untouched, whatever key or
username the new register supplies; the only change to the directory is that
the registering connection is added to that account's connection set. -/
theorem C3_reregister_keeps_record (ws : Conn)
    (accountId publicKey username : Option String) (now : Nat)
    (st : ServerState) (u : User)
    (h1 : falsy accountId = false) (h2 : falsy publicKey = false)
    (hu : mapGet st.users (accountId.getD "") = some u) :
    (handleRegister ws accountId publicKey username now st).1.users =
      mapSet st.users (accountId.getD "")
        { u with connections := addConn ws u.connections } := by
  have hhas : mapHas st.users (accountId.getD "") = true := by
    simp [mapHas, hu]
  simp only [handleRegister, h1, h2, Bool.or_self, Bool.false_or, if_neg,
    Bool.false_eq_true, not_false_eq_true, hhas, if_true, hu, Option.getD_some]
  split <;> rfl

/-- Witness for C3: re-registering "alice" under a different key and username
adds connection 2 but keeps the original record. -/
theorem C3_reregister_keeps_record_witness :
    (handleRegister 2 (some "alice") (some "pkNEW") (some "Mallory") 99
        ⟨[("alice", ⟨"pkA", "Alice", [1], 10⟩)], []⟩).1.users =
      [("alice", ⟨"pkA", "Alice", [1, 2], 10⟩)] :=
  C3_reregister_keeps_record 2 (some "alice") (some "pkNEW") (some "Mallory") 99
    ⟨[("alice", ⟨"pkA", "Alice", [1], 10⟩)], []⟩ ⟨"pkA", "Alice", [1], 10⟩
    rfl rfl rfl

/-- C5: a successful register of an id whose offline queue holds the sequence
`q` sends `q`'s messages to the newly attached connection in their insertion
order (right after the `registered` frame), removes the queue entry for that
id, and a second register of the same id immediately afterwards delivers no
further queued messages — its output is the `registered` frame alone. -/
theorem C5_flush_on_register (ws ws' : Conn)
    (accountId publicKey username publicKey' username' : Option String)
    (now now' : Nat) (st : ServerState) (q : List Packet)
    (h1 : falsy accountId = false) (h2 : falsy publicKey = false)
    (h2' : falsy publicKey' = false)
    (hq : mapGet st.messageQueue (accountId.getD "") = some q)
    (_hqne : q ≠ []) :
    (handleRegister ws accountId publicKey username now st).2 =
      Action.send ws (.registered (accountId.getD "")
          (handleRegister ws accountId publicKey username now st).1.users.length) ::
        q.map (fun msg => Action.send ws (.newMessage msg)) ∧
    mapGet (handleRegister ws accountId publicKey username now st).1.messageQueue
        (accountId.getD "") = none ∧
    (handleRegister ws' accountId publicKey' username' now'
        (handleRegister ws accountId publicKey username now st).1).2 =
      [Action.send ws' (.registered (accountId.getD "")
        (handleRegister ws' accountId publicKey' username' now'
          (handleRegister ws accountId publicKey username now st).1).1.users.length)] := by
  obtain ⟨hmq, houts⟩ :=
    handleRegister_flush ws accountId publicKey username now st q h1 h2 hq
  have hgone : mapGet (handleRegister ws accountId publicKey username now st).1.messageQueue
      (accountId.getD "") = none := by
    rw [hmq]
    exact mapGet_mapDelete_self _ _
  exact ⟨houts, hgone,
    handleRegister_no_queue ws' accountId publicKey' username' now' _ h1 h2' hgone⟩

/-- Witness for C5: registering "alice" flushes her two queued messages in
order, empties her queue entry, and an immediate second registration delivers
nothing further. -/
theorem C5_flush_on_register_witness :
    (handleRegister 1 (some "alice") (some "pkA") none 10
        ⟨[], [("alice", [⟨"bob", "m1", 1, "i1"⟩, ⟨"bob", "m2", 2, "i2"⟩])]⟩).2 =
      [.send 1 (.registered "alice" 1),
       .send 1 (.newMessage ⟨"bob", "m1", 1, "i1"⟩),
       .send 1 (.newMessage ⟨"bob", "m2", 2, "i2"⟩)] ∧
    mapGet (handleRegister 1 (some "alice") (some "pkA") none 10
        ⟨[], [("alice", [⟨"bob", "m1", 1, "i1"⟩, ⟨"bob", "m2", 2, "i2"⟩])]⟩).1.messageQueue
      "alice" = none ∧
    (handleRegister 2 (some "alice") (some "pkA2") none 20
        (handleRegister 1 (some "alice") (some "pkA") none 10
          ⟨[], [("alice", [⟨"bob", "m1", 1, "i1"⟩, ⟨"bob", "m2", 2, "i2"⟩])]⟩).1).2 =
      [.send 2 (.registered "alice" 1)] := by
  have h := C5_flush_on_register 1 2 (some "alice") (some "pkA") none (some "pkA2") none
    10 20 ⟨[], [("alice", [⟨"bob", "m1", 1, "i1"⟩, ⟨"bob", "m2", 2, "i2"⟩])]⟩
    [⟨"bob", "m1", 1, "i1"⟩, ⟨"bob", "m2", 2, "i2"⟩] rfl rfl rfl rfl (by decide)
  exact ⟨h.1, h.2.1, h.2.2⟩

/-- C6: provided the queue map's keys are duplicate-free (as they are for any
map built by `Map.set`/`Map.delete`), a cleanup sweep at time `now` replaces
every stored sequence by its subsequence of messages younger than 7 days —
`filter` keeps the relative order — removing the key entirely when that
subsequence is empty, touching no other key, and leaving no empty sequence in
the swept map. -/
theorem C6_cleanup_sweep (now : Nat) (st : ServerState)
    (hnd : (st.messageQueue.map Prod.fst).Nodup) :
    (∀ aid q, mapGet st.messageQueue aid = some q →
      mapGet (cleanup now st).messageQueue aid =
        (if (q.filter (isFresh now)).length = 0 then none
         else some (q.filter (isFresh now)))) ∧
    (∀ aid, mapGet st.messageQueue aid = none →
      mapGet (cleanup now st).messageQueue aid = none) ∧
    (∀ e ∈ (cleanup now st).messageQueue, e.2 ≠ []) := by
  refine ⟨fun aid q hq => ?_, fun aid hq => ?_, fun e he => ?_⟩
  · rw [show (cleanup now st).messageQueue =
        (st.messageQueue.map (fun e : String × List Packet => (e.1, e.2.filter (isFresh now)))).filter
          (fun e => e.2.length != 0) from rfl,
      mapGet_sweep now st.messageQueue aid hnd, hq]
  · rw [show (cleanup now st).messageQueue =
        (st.messageQueue.map (fun e : String × List Packet => (e.1, e.2.filter (isFresh now)))).filter
          (fun e => e.2.length != 0) from rfl,
      mapGet_sweep now st.messageQueue aid hnd, hq]
  · have he' : e ∈ (st.messageQueue.map
        (fun x : String × List Packet => (x.1, x.2.filter (isFresh now)))).filter
        (fun x => x.2.length != 0) := he
    have hmem := List.of_mem_filter he'
    simp only [bne_iff_ne, ne_eq] at hmem
    intro hnil
    rw [hnil] at hmem
    simp at hmem

/-- Witness for C6 with message ages 0, 6 days and 8 days at sweep time
`now = 8` days: the two younger messages survive in order for "bob", and
"carol", whose only message is 8 days old, disappears from the map. -/
theorem C6_cleanup_sweep_witness :
    mapGet (cleanup 691200000
        ⟨[], [("bob", [⟨"a", "m1", 691200000, "i1"⟩, ⟨"a", "m2", 172800000, "i2"⟩,
                       ⟨"a", "m3", 0, "i3"⟩]),
              ("carol", [⟨"a", "m4", 0, "i4"⟩])]⟩).messageQueue "bob" =
      some [⟨"a", "m1", 691200000, "i1"⟩, ⟨"a", "m2", 172800000, "i2"⟩] ∧
    mapGet (cleanup 691200000
        ⟨[], [("bob", [⟨"a", "m1", 691200000, "i1"⟩, ⟨"a", "m2", 172800000, "i2"⟩,
                       ⟨"a", "m3", 0, "i3"⟩]),
              ("carol", [⟨"a", "m4", 0, "i4"⟩])]⟩).messageQueue "carol" = none := by
  have h := C6_cleanup_sweep 691200000
    ⟨[], [("bob", [⟨"a", "m1", 691200000, "i1"⟩, ⟨"a", "m2", 172800000, "i2"⟩,
                   ⟨"a", "m3", 0, "i3"⟩]),
          ("carol", [⟨"a", "m4", 0, "i4"⟩])]⟩ (by decide)
  constructor
  · have hb := h.1 "bob" [⟨"a", "m1", 691200000, "i1"⟩, ⟨"a", "m2", 172800000, "i2"⟩,
      ⟨"a", "m3", 0, "i3"⟩] rfl
    rw [hb]
    decide
  · have hc := h.1 "carol" [⟨"a", "m4", 0, "i4"⟩] rfl
    rw [hc]
    decide

/-- C8 counterexample: connection 1 registers successfully as "alice", then
sends a register frame naming "bob" that fails validation (second conjunct:
it is answered with the validation error, so the most recent SUCCESSFUL
register on this connection is still "alice"'s).  Yet the session now holds
"bob", and closing the connection leaves handle 1 inside "alice"'s connection
set — the handle is not removed from the account of the most recent
successful register, refuting the claim. -/
theorem C8_counterexample :
    closeScene2.2.2 = [.send 1 (.error "Missing accountId or publicKey")] ∧
    closeScene2.1 = ⟨some "bob"⟩ ∧
    mapGet (handleClose 1 closeScene2.1 closeScene2.2.1).users "alice" =
      some ⟨"pkA", "Anonymous", [1], 10⟩ :=
  ⟨rfl, rfl, rfl⟩

/-- C8 (amended): the dispatcher captures the `accountId` field of every
register frame — successful or not — as the connection's bound id; on close,
if that captured id is truthy and names a known account, the handle is
removed from that account's connection set (the directory is otherwise
untouched); removal when the handle is absent is a complete no-op; and no
close ever deletes an account key. -/
theorem C8_close_resolves_last_register (ws : Conn) (sess : Session)
    (st : ServerState) :
    (∀ accountId publicKey username now freshId isOpen st0,
      (handleRawMessage ws (.parsed (.register accountId publicKey username))
          now freshId isOpen sess st0).1.currentAccountId = accountId) ∧
    (∀ aid u, sess.currentAccountId = some aid → aid.isEmpty = false →
      mapGet st.users aid = some u →
      (handleClose ws sess st).users = mapSet st.users aid
        ⟨u.publicKey, u.username, u.connections.filter (fun c => c ≠ ws),
          u.registeredAt⟩) ∧
    (∀ aid u, sess.currentAccountId = some aid → aid.isEmpty = false →
      mapGet st.users aid = some u → ws ∉ u.connections →
      handleClose ws sess st = st) ∧
    (∀ k, mapHas (handleClose ws sess st).users k = mapHas st.users k) := by
  refine ⟨fun _ _ _ _ _ _ _ => rfl, fun aid u hs he hu => ?_,
    fun aid u hs he hu hw => ?_, fun k => ?_⟩
  · simp [handleClose, hs, falsy, he, hu]
  · simp only [handleClose, hs, falsy, he, Bool.false_eq_true, if_false, hu,
      Option.getD_some]
    have hfilter : List.filter (fun c => decide (c ≠ ws)) u.connections =
        u.connections := by
      rw [List.filter_eq_self]
      intro a ha
      simp only [ne_eq, decide_eq_true_eq]
      intro h
      exact hw (h ▸ ha)
    rw [hfilter]
    have heta : (⟨u.publicKey, u.username, u.connections, u.registeredAt⟩ : User) = u := rfl
    rw [heta, mapSet_mapGet_self st.users aid u hu]
  · cases hf : falsy sess.currentAccountId with
    | true => simp [handleClose, hf]
    | false =>
        cases hu : mapGet st.users (sess.currentAccountId.getD "") with
        | none => simp [handleClose, hf, hu]
        | some u =>
            by_cases hk : k = sess.currentAccountId.getD ""
            · subst hk
              simp [handleClose, hf, hu, mapHas, mapGet_mapSet_self]
            · simp [handleClose, hf, hu, mapHas,
                mapGet_mapSet_ne _ _ _ _ hk]

/-- Witness for the amended C8: closing connection 2 on a session bound to
"alice" removes handle 2 and only handle 2 from her set. -/
theorem C8_close_resolves_last_register_witness :
    (handleClose 2 ⟨some "alice"⟩
        ⟨[("alice", ⟨"pkA", "Alice", [1, 2], 10⟩)], []⟩).users =
      [("alice", ⟨"pkA", "Alice", [1], 10⟩)] :=
  (C8_close_resolves_last_register 2 ⟨some "alice"⟩
    ⟨[("alice", ⟨"pkA", "Alice", [1, 2], 10⟩)], []⟩).2.1 "alice"
    ⟨"pkA", "Alice", [1, 2], 10⟩ rfl rfl rfl

end Phantom
